import Mathlib

/-!
Verification development for the LDAP upstream watcher controller of the
pinniped repository (internal/controller/supervisorconfig/upstreamwatcher/
ldap_upstream_watcher.go).

The Go source is shallowly embedded below: pure functions of the controller
become Lean functions, the external collaborators (secret lister, base64
decoder, PEM certificate pool, LDAP dialer) are abstracted into an
environment record of oracles, and the side effects of one Sync call
(cache publication, status writes, the returned error) are made explicit
as data returned by the embedded functions.

The regular expression
  `\[validated with Secret ".+" at version "(.+)"]` (preceded by a space)
stored in the source variable secretVersionParser is modelled by a
specialised matcher implementing the documented semantics of Go's regexp
package on exactly this pattern: leftmost-first matching, greedy
quantifiers, and a dot that matches every character except a newline.
-/

set_option maxRecDepth 4000

namespace LDAPUpstreamWatcher

/-! ## Definitions -/

/-- Literal fragment of the pattern: everything before the first `.+`,
including the leading space, i.e. ` [validated with Secret "`. -/
def validatedMarker : List Char := (" [validated with Secret \"").data

/-- Literal fragment of the pattern between the two `.+` groups:
`" at version "`. -/
def atVersionSep : List Char := ("\" at version \"").data

/-- The part of `atVersionSep` after its first character. -/
def atVersionSepTail : List Char := (" at version \"").data

/-- Literal fragment of the pattern after the capture group: `"]`. -/
def closeBracket : List Char := ("\"]").data

/-- Greedy match of `(.+)"]` against a suffix, allowing the capture to be
empty at the current position (the nonemptiness of the capture group is
imposed by `captureB` which consumes the first character).  Returns the
longest newline-free capture that is immediately followed by `"]`. -/
def lvB : List Char → Option (List Char)
  | [] => none
  | c :: rest =>
    match if c = '\n' then none else (lvB rest).map (fun b => c :: b) with
    | some b => some b
    | none => if closeBracket.isPrefixOf (c :: rest) then some [] else none

/-- Greedy match of `(.+)"]` against a suffix: the capture group is `.+`,
so it is nonempty and newline-free; greediness makes it as long as
possible. -/
def captureB : List Char → Option (List Char)
  | [] => none
  | c :: rest => if c = '\n' then none else (lvB rest).map (fun b => c :: b)

/-- Greedy match of `.+" at version "(.+)"]` against a suffix, allowing
the first `.+` to be empty at the current position (its nonemptiness is
imposed by `matchAfterMarker`).  Following Go's leftmost-first semantics,
a longer first group is preferred, and for each choice of the first group
the capture is evaluated greedily by `captureB`. -/
def lvAll : List Char → Option (List Char)
  | [] => none
  | c :: rest =>
    match if c = '\n' then none else lvAll rest with
    | some v => some v
    | none =>
      if atVersionSep.isPrefixOf (c :: rest) then
        captureB ((c :: rest).drop atVersionSep.length)
      else none

/-- Match of `.+" at version "(.+)"]` right after the literal marker:
the first `.+` must consume at least one character. -/
def matchAfterMarker : List Char → Option (List Char)
  | [] => none
  | c :: rest => if c = '\n' then none else lvAll rest

/-- Model of `secretVersionParser.FindStringSubmatch` restricted to its
capture group: scan for the leftmost position at which the whole pattern
matches and return the capture of `(.+)`.  `none` corresponds to
`len(matches) != 2` in the Go source. -/
def findTrailerVersion : List Char → Option (List Char)
  | [] => none
  | c :: rest =>
    if validatedMarker.isPrefixOf (c :: rest) then
      match matchAfterMarker ((c :: rest).drop validatedMarker.length) with
      | some v => some v
      | none => findTrailerVersion rest
    else findTrailerVersion rest

/-- String-level entry point of the trailer parser. -/
def secretVersionParse (message : String) : Option (List Char) :=
  findTrailerVersion message.data

/-- Message of the LDAPConnectionValid=True condition written by
`testConnection` in the source. -/
def testConnectionSuccessMessage (host bindUsername secretName version : String) : String :=
  "successfully able to connect to \"" ++ host ++ "\" and bind as user \"" ++
    bindUsername ++ "\" [validated with Secret \"" ++ secretName ++
    "\" at version \"" ++ version ++ "\"]"

/-- Message of the LDAPConnectionValid=True condition written by
`dryRunAuthentication` in the source. -/
def dryRunSuccessMessage (dryRunUsername responseName responseUID secretName version : String) : String :=
  "successful authentication dry run for end user \"" ++ dryRunUsername ++
    "\": selected username \"" ++ responseName ++ "\" and UID \"" ++ responseUID ++
    "\" [validated with Secret \"" ++ secretName ++ "\" at version \"" ++ version ++ "\"]"

inductive ConditionStatus
  | ctrue
  | cfalse
  | cunknown
deriving DecidableEq

/-- Embedding of v1alpha1.Condition (fields Type, Status, Reason, Message,
ObservedGeneration, LastTransitionTime). -/
structure Condition where
  ctype : String
  status : ConditionStatus
  reason : String
  message : String
  observedGeneration : Int
  lastTransitionTime : Nat
deriving DecidableEq

structure UserSearchAttributes where
  username : String
  uid : String
deriving DecidableEq

structure UserSearchSpec where
  base : String
  filter : String
  attributes : UserSearchAttributes
deriving DecidableEq

structure TLSSpec where
  certificateAuthorityData : String
deriving DecidableEq

structure BindSpec where
  secretName : String
deriving DecidableEq

structure LDAPIdentityProviderSpec where
  host : String
  userSearch : UserSearchSpec
  tls : Option TLSSpec
  bind : BindSpec
  dryRunAuthenticationUsername : String
deriving DecidableEq

inductive LDAPPhase
  | ready
  | error
deriving DecidableEq

structure LDAPIdentityProviderStatus where
  phase : LDAPPhase
  conditions : List Condition
deriving DecidableEq

structure LDAPIdentityProvider where
  name : String
  nsName : String
  generation : Int
  spec : LDAPIdentityProviderSpec
  status : LDAPIdentityProviderStatus
deriving DecidableEq

/-- Embedding of corev1.Secret restricted to the fields the controller
reads: Type, ResourceVersion and the Data map. -/
structure Secret where
  secretType : String
  resourceVersion : String
  data : List (String × String)
deriving DecidableEq

/-- Go map indexing `secret.Data[key]` yields the zero value (empty string)
when the key is absent. -/
def Secret.getData (s : Secret) (key : String) : String :=
  ((s.data.find? (fun kv => kv.1 == key)).map Prod.snd).getD ""

structure UserSearchConfig where
  base : String
  filter : String
  usernameAttribute : String
  uidAttribute : String
deriving DecidableEq

/-- Embedding of upstreamldap.ProviderConfig; a published cache record
(`upstreamldap.New(*config)`) is identified with its config. -/
structure ProviderConfig where
  name : String
  host : String
  caBundle : Option String
  bindUsername : String
  bindPassword : String
  userSearch : UserSearchConfig
deriving DecidableEq

def typeBindSecretValid : String := "BindSecretValid"

def typeTLSConfigurationValid : String := "TLSConfigurationValid"

def typeLDAPConnectionValid : String := "LDAPConnectionValid"

def reasonLDAPConnectionError : String := "LDAPConnectionError"

def reasonAuthenticationDryRunError : String := "AuthenticationDryRunError"

def noTLSConfigurationMessage : String := "no TLS configuration provided"

def loadedTLSConfigurationMessage : String := "loaded TLS configuration"

/-- Modelled from the spec: the shared reason constant reasonSuccess of the
upstreamwatcher package is declared in a sibling file that is not among the
provided sources. -/
def reasonSuccess : String := "Success"

/-- Modelled from the spec: reason for a missing bind secret; the spec
says "Missing secret → False with NotFound". -/
def reasonNotFound : String := "NotFound"

/-- Modelled from the spec: reason for a bind secret of the wrong type; the
spec says "Wrong secret type → False with WrongType". -/
def reasonWrongType : String := "WrongType"

/-- Modelled from the spec: the LDAP watcher source refers to the distinct
constant reasonMissingKeys for a basic-auth secret with missing or empty
username/password entries; its value is declared in a sibling file that is
not among the provided sources. -/
def reasonMissingKeys : String := "MissingKeys"

/-- Modelled from the spec: "Invalid base64 CA data →
TLSConfigurationValid=False/InvalidTLSConfig". -/
def reasonInvalidTLSConfig : String := "InvalidTLSConfig"

/-- Modelled from the spec: the error value errNoCertificates interpolated
into the invalid-TLS message when no PEM certificate parses; declared in a
sibling file that is not among the provided sources. -/
def errNoCertificates : String := "no certificates found during PEM certificate parsing"

/-- Modelled from the spec: corev1.SecretTypeBasicAuth, the bind-secret
"type discriminator basic-auth" of the spec. -/
def ldapBindAccountSecretType : String := "kubernetes.io/basic-auth"

/-- Modelled from the spec: corev1.BasicAuthUsernameKey ("data keys
username, password"). -/
def basicAuthUsernameKey : String := "username"

/-- Modelled from the spec: corev1.BasicAuthPasswordKey. -/
def basicAuthPasswordKey : String := "password"

/-- Outcome of the dialer's DryRunAuthenticateUser call
(`(authResponse, authenticated, err)` in Go). -/
inductive DryRunResult
  | failure (errMessage : String)
  | notAuthenticated
  | authenticated (userName : String) (userUID : String)
deriving DecidableEq

/-- Oracles for the external collaborators of one sync: the secret lister
(Get, returning the error text on failure), base64.StdEncoding.DecodeString,
x509 AppendCertsFromPEM, the LDAP dialer, and the clock used for condition
transition times. -/
structure LDAPEnv where
  getSecret : String → String → Except String Secret
  b64decode : String → Except String String
  pemAppendCerts : String → Bool
  testConnectionErr : ProviderConfig → Option String
  dryRunAuthenticateUser : ProviderConfig → String → DryRunResult
  now : Nat

/-- Embedding of validateSecret: returns the BindSecretValid condition, the
observed secret resource-version, and the (possibly mutated) provider
config. -/
def validateSecret (env : LDAPEnv) (upstream : LDAPIdentityProvider)
    (config : ProviderConfig) : Condition × String × ProviderConfig :=
  let secretName := upstream.spec.bind.secretName
  match env.getSecret upstream.nsName secretName with
  | Except.error e =>
    (⟨typeBindSecretValid, ConditionStatus.cfalse, reasonNotFound, e, 0, 0⟩, "", config)
  | Except.ok secret =>
    if secret.secretType ≠ ldapBindAccountSecretType then
      (⟨typeBindSecretValid, ConditionStatus.cfalse, reasonWrongType,
        "referenced Secret \"" ++ secretName ++ "\" has wrong type \"" ++
          secret.secretType ++ "\" (should be \"" ++ ldapBindAccountSecretType ++ "\")",
        0, 0⟩, secret.resourceVersion, config)
    else
      let config := { config with
        bindUsername := secret.getData basicAuthUsernameKey,
        bindPassword := secret.getData basicAuthPasswordKey }
      if config.bindUsername = "" ∨ config.bindPassword = "" then
        (⟨typeBindSecretValid, ConditionStatus.cfalse, reasonMissingKeys,
          "referenced Secret \"" ++ secretName ++ "\" is missing required keys " ++
            "[\"username\" \"password\"]", 0, 0⟩, secret.resourceVersion, config)
      else
        (⟨typeBindSecretValid, ConditionStatus.ctrue, reasonSuccess, "loaded bind secret",
          0, 0⟩, secret.resourceVersion, config)

/-- Embedding of validTLSCondition. -/
def validTLSCondition (message : String) : Condition :=
  ⟨typeTLSConfigurationValid, ConditionStatus.ctrue, reasonSuccess, message, 0, 0⟩

/-- Embedding of invalidTLSCondition. -/
def invalidTLSCondition (message : String) : Condition :=
  ⟨typeTLSConfigurationValid, ConditionStatus.cfalse, reasonInvalidTLSConfig, message, 0, 0⟩

/-- Embedding of validateTLSConfig: returns the TLSConfigurationValid
condition and the (possibly mutated) provider config. -/
def validateTLSConfig (env : LDAPEnv) (upstream : LDAPIdentityProvider)
    (config : ProviderConfig) : Condition × ProviderConfig :=
  match upstream.spec.tls with
  | none => (validTLSCondition noTLSConfigurationMessage, config)
  | some tlsSpec =>
    if tlsSpec.certificateAuthorityData = "" then
      (validTLSCondition loadedTLSConfigurationMessage, config)
    else
      match env.b64decode tlsSpec.certificateAuthorityData with
      | Except.error e =>
        (invalidTLSCondition ("certificateAuthorityData is invalid: " ++ e), config)
      | Except.ok bundle =>
        if env.pemAppendCerts bundle then
          (validTLSCondition loadedTLSConfigurationMessage,
           { config with caBundle := some bundle })
        else
          (invalidTLSCondition ("certificateAuthorityData is invalid: " ++ errNoCertificates),
           config)

/-- Embedding of testConnection. -/
def testConnection (env : LDAPEnv) (upstream : LDAPIdentityProvider)
    (config : ProviderConfig) (currentSecretVersion : String) : Condition :=
  match env.testConnectionErr config with
  | some e =>
    ⟨typeLDAPConnectionValid, ConditionStatus.cfalse, reasonLDAPConnectionError,
      "could not successfully connect to \"" ++ config.host ++ "\" and bind as user \"" ++
        config.bindUsername ++ "\": " ++ e, 0, 0⟩
  | none =>
    ⟨typeLDAPConnectionValid, ConditionStatus.ctrue, reasonSuccess,
      testConnectionSuccessMessage config.host config.bindUsername
        upstream.spec.bind.secretName currentSecretVersion, 0, 0⟩

/-- Embedding of dryRunAuthentication. -/
def dryRunAuthentication (env : LDAPEnv) (upstream : LDAPIdentityProvider)
    (config : ProviderConfig) (currentSecretVersion : String) : Condition :=
  match env.dryRunAuthenticateUser config upstream.spec.dryRunAuthenticationUsername with
  | DryRunResult.failure e =>
    ⟨typeLDAPConnectionValid, ConditionStatus.cfalse, reasonAuthenticationDryRunError,
      "failed authentication dry run for end user \"" ++
        upstream.spec.dryRunAuthenticationUsername ++ "\": " ++ e, 0, 0⟩
  | DryRunResult.notAuthenticated =>
    ⟨typeLDAPConnectionValid, ConditionStatus.cfalse, reasonAuthenticationDryRunError,
      "failed authentication dry run for end user \"" ++
        upstream.spec.dryRunAuthenticationUsername ++ "\": user not found", 0, 0⟩
  | DryRunResult.authenticated userName userUID =>
    ⟨typeLDAPConnectionValid, ConditionStatus.ctrue, reasonSuccess,
      dryRunSuccessMessage upstream.spec.dryRunAuthenticationUsername userName userUID
        upstream.spec.bind.secretName currentSecretVersion, 0, 0⟩

/-- Embedding of
hasPreviousSuccessfulConditionForCurrentSpecGenerationAndSecretVersion. -/
def hasPreviousSuccessfulConditionForCurrentSpecGenerationAndSecretVersion
    (upstream : LDAPIdentityProvider) (currentSecretVersion : String) : Bool :=
  upstream.status.conditions.any fun c =>
    decide (c.ctype = typeLDAPConnectionValid ∧ c.status = ConditionStatus.ctrue ∧
      c.observedGeneration = upstream.generation ∧
      findTrailerVersion c.message.data = some currentSecretVersion.data)

/-- Embedding of validateFinishedConfig; `none` models the Go nil result
(no condition update needed). -/
def validateFinishedConfig (env : LDAPEnv) (upstream : LDAPIdentityProvider)
    (config : ProviderConfig) (currentSecretVersion : String) : Option Condition :=
  if hasPreviousSuccessfulConditionForCurrentSpecGenerationAndSecretVersion
      upstream currentSecretVersion then
    none
  else if upstream.spec.dryRunAuthenticationUsername ≠ "" then
    some (dryRunAuthentication env upstream config currentSecretVersion)
  else
    some (testConnection env upstream config currentSecretVersion)

/-- Modelled from the spec: merging one computed condition into the
existing list (the helper mergeCondition lives in a sibling file of the
upstreamwatcher package that is not among the provided sources).  A
condition whose type matches an existing condition of that type replaces
it, the transition time updates only if the status flipped; otherwise it is
appended. -/
def mergeCondition (existing : List Condition) (newCondition : Condition) : List Condition :=
  match existing.find? (fun old => old.ctype == newCondition.ctype) with
  | some old =>
    existing.map fun o =>
      if o.ctype = newCondition.ctype then
        if old.status = newCondition.status then
          { newCondition with lastTransitionTime := old.lastTransitionTime }
        else newCondition
      else o
  | none => existing ++ [newCondition]

/-- Modelled from the spec: mergeConditions (declared in a sibling file of
the upstreamwatcher package that is not among the provided sources).  Every
computed condition is stamped with the object's current generation and the
current time and merged into the existing list; the returned flag reports
whether any computed condition has status False ("Ready if no condition has
status=False among those computed; else Error"). -/
def mergeConditions (conditions : List Condition) (observedGeneration : Int)
    (existing : List Condition) (now : Nat) : List Condition × Bool :=
  let stamped := conditions.map fun c =>
    { c with observedGeneration := observedGeneration, lastTransitionTime := now }
  (stamped.foldl mergeCondition existing,
   conditions.any fun c => decide (c.status = ConditionStatus.cfalse))

/-- Result of updateStatus: the flag it returns, the updated object it
computed, and the UpdateStatus write it issued (`none` when the updated
object semantically equals the stored one and no write happens). -/
structure UpdateStatusResult where
  hadErrorCondition : Bool
  updated : LDAPIdentityProvider
  write : Option LDAPIdentityProvider
deriving DecidableEq

/-- Embedding of updateStatus. -/
def updateStatus (env : LDAPEnv) (upstream : LDAPIdentityProvider)
    (conditions : List Condition) : UpdateStatusResult :=
  let merged := mergeConditions conditions upstream.generation upstream.status.conditions env.now
  let hadErrorCondition := merged.2
  let phase := if hadErrorCondition then LDAPPhase.error else LDAPPhase.ready
  let updated := { upstream with status := ⟨phase, merged.1⟩ }
  ⟨hadErrorCondition, updated, if updated = upstream then none else some updated⟩

/-- Result of validateUpstream: the validated record it returns (`none`
models the Go nil), the condition list it handed to updateStatus, and the
effects of updateStatus. -/
structure ValidateUpstreamResult where
  record : Option ProviderConfig
  conditionsComputed : List Condition
  hadErrorCondition : Bool
  statusWrite : Option LDAPIdentityProvider
deriving DecidableEq

/-- The candidate provider config built at the top of validateUpstream. -/
def initialConfig (upstream : LDAPIdentityProvider) : ProviderConfig :=
  ⟨upstream.name, upstream.spec.host, none, "", "",
    ⟨upstream.spec.userSearch.base, upstream.spec.userSearch.filter,
      upstream.spec.userSearch.attributes.username,
      upstream.spec.userSearch.attributes.uid⟩⟩

/-- Embedding of validateUpstream. -/
def validateUpstream (env : LDAPEnv) (upstream : LDAPIdentityProvider) :
    ValidateUpstreamResult :=
  let s := validateSecret env upstream (initialConfig upstream)
  let secretValidCondition := s.1
  let currentSecretVersion := s.2.1
  let t := validateTLSConfig env upstream s.2.2
  let tlsValidCondition := t.1
  let config := t.2
  let conditions :=
    if secretValidCondition.status = ConditionStatus.ctrue ∧
        tlsValidCondition.status = ConditionStatus.ctrue then
      match validateFinishedConfig env upstream config currentSecretVersion with
      | some finishedConfigCondition =>
        [secretValidCondition, tlsValidCondition, finishedConfigCondition]
      | none => [secretValidCondition, tlsValidCondition]
    else [secretValidCondition, tlsValidCondition]
  let u := updateStatus env upstream conditions
  ⟨if u.hadErrorCondition then none else some config, conditions, u.hadErrorCondition, u.write⟩

/-- Result of one Sync call: the snapshot handed to
SetLDAPIdentityProviders (`none` when the cache was never touched) and the
returned error. -/
inductive SyncError
  | noError
  | syntheticRequeue
  | listError (message : String)
deriving DecidableEq

structure SyncResult where
  published : Option (List ProviderConfig)
  error : SyncError
deriving DecidableEq

/-- Embedding of Sync; the lister outcome is an explicit input. -/
def Sync (env : LDAPEnv) (listResult : Except String (List LDAPIdentityProvider)) :
    SyncResult :=
  match listResult with
  | Except.error e =>
    ⟨none, SyncError.listError ("failed to list LDAPIdentityProviders: " ++ e)⟩
  | Except.ok actualUpstreams =>
    let results := actualUpstreams.map fun upstream => (validateUpstream env upstream).record
    ⟨some (results.filterMap id),
     if results.any Option.isNone then SyncError.syntheticRequeue else SyncError.noError⟩

/-- A sample provider without TLS configuration or dry-run username. -/
def sampleUpstream : LDAPIdentityProvider :=
  ⟨"upstream-idp", "idp-ns", 3,
    ⟨"ldap.example.com:636",
      ⟨"ou=users,dc=example,dc=com", "(objectClass=person)", ⟨"cn", "uidNumber"⟩⟩,
      none, ⟨"bind-secret"⟩, ""⟩,
    ⟨LDAPPhase.ready, []⟩⟩

/-- A sample provider with a dry-run username configured. -/
def sampleDryRunUpstream : LDAPIdentityProvider :=
  ⟨"upstream-idp", "idp-ns", 3,
    ⟨"ldap.example.com:636",
      ⟨"ou=users,dc=example,dc=com", "(objectClass=person)", ⟨"cn", "uidNumber"⟩⟩,
      none, ⟨"bind-secret"⟩, "pinny"⟩,
    ⟨LDAPPhase.ready, []⟩⟩

/-- A sample provider with TLS certificate-authority data configured. -/
def sampleTLSUpstream : LDAPIdentityProvider :=
  ⟨"upstream-idp", "idp-ns", 3,
    ⟨"ldap.example.com:636",
      ⟨"ou=users,dc=example,dc=com", "(objectClass=person)", ⟨"cn", "uidNumber"⟩⟩,
      some ⟨"invalid-base64!"⟩, ⟨"bind-secret"⟩, ""⟩,
    ⟨LDAPPhase.ready, []⟩⟩

def sampleBasicAuthSecret : Secret :=
  ⟨"kubernetes.io/basic-auth", "4711", [("username", "cn=admin"), ("password", "s3cr3t")]⟩

def sampleWrongTypeSecret : Secret :=
  ⟨"Opaque", "4711", [("username", "cn=admin"), ("password", "s3cr3t")]⟩

def sampleMissingUsernameSecret : Secret :=
  ⟨"kubernetes.io/basic-auth", "4711", [("password", "s3cr3t")]⟩

/-- An environment whose oracles are constant: the secret lister returns
`secretResult`, base64 decoding returns `b64`, PEM parsing always succeeds,
connections succeed, and dry runs return `dryRun`. -/
def sampleEnv (secretResult : Except String Secret) (b64 : Except String String)
    (dryRun : DryRunResult) : LDAPEnv :=
  ⟨fun _ _ => secretResult, fun _ => b64, fun _ => true, fun _ => none, fun _ _ => dryRun, 5⟩

/-! ## Theorems -/

theorem strDataAppend (a b : String) : (a ++ b).data = a.data ++ b.data := by
  cases a; cases b; rfl

theorem isPrefixOf_append_self (l t : List Char) : l.isPrefixOf (l ++ t) = true := by
  induction l with
  | nil => simp [List.isPrefixOf]
  | cons c cs ih => simp [List.isPrefixOf, ih]

theorem exists_of_isPrefixOf :
    ∀ (l s : List Char), l.isPrefixOf s = true → ∃ t, s = l ++ t := by
  intro l
  induction l with
  | nil => exact fun s _ => ⟨s, rfl⟩
  | cons c cs ih =>
    intro s h
    cases s with
    | nil => simp [List.isPrefixOf] at h
    | cons b bs =>
      simp only [List.isPrefixOf, Bool.and_eq_true, beq_iff_eq] at h
      obtain ⟨t, ht⟩ := ih bs h.2
      exact ⟨t, by simp [h.1, ht]⟩

theorem captureB_short (t : List Char) (h : t.length ≤ 1) : captureB t = none := by
  match t with
  | [] => rfl
  | [x] => simp [captureB, lvB]
  | x :: y :: rest => simp at h

theorem atVersionSep_not_prefix {c : Char} (hc : c ≠ '"') (l : List Char) :
    atVersionSep.isPrefixOf (c :: l) = false := by
  have h : atVersionSep = '"' :: atVersionSepTail := by decide
  have hb : ('"' == c) = false := beq_eq_false_iff_ne.mpr (fun hq => hc hq.symm)
  rw [h]
  simp [List.isPrefixOf, hb]

theorem lvAll_cons_none {c : Char} {rest : List Char} (hc : c ≠ '"')
    (h : lvAll rest = none) : lvAll (c :: rest) = none := by
  have hp := atVersionSep_not_prefix hc rest
  by_cases hn : c = '\n'
  · rw [lvAll, if_pos hn]
    simp [hp]
  · rw [lvAll, if_neg hn, h]
    simp [hp]

theorem lvAll_version_close (v : List Char) (h2 : '"' ∉ v) :
    lvAll (v ++ closeBracket) = none := by
  induction v with
  | nil => decide
  | cons c cs ih =>
    have hc : c ≠ '"' := fun h => h2 (h ▸ List.mem_cons_self c cs)
    exact lvAll_cons_none hc (ih (fun h => h2 (List.mem_cons_of_mem c h)))

theorem lvAll_quote_version_close (v : List Char) (h2 : '"' ∉ v) :
    lvAll ('"' :: (v ++ closeBracket)) = none := by
  rw [lvAll, if_neg (by decide : ¬('"' : Char) = '\n'), lvAll_version_close v h2]
  show (if atVersionSep.isPrefixOf ('"' :: (v ++ closeBracket)) = true then
      captureB (('"' :: (v ++ closeBracket)).drop atVersionSep.length) else none) = none
  by_cases hp : atVersionSep.isPrefixOf ('"' :: (v ++ closeBracket)) = true
  · rw [if_pos hp]
    obtain ⟨t, ht⟩ := exists_of_isPrefixOf _ _ hp
    rw [ht, List.drop_left]
    apply captureB_short
    have hlen12 : v.length ≤ 12 := by
      by_contra hgt
      push_neg at hgt
      have hsep : atVersionSep = '"' :: atVersionSepTail := by decide
      rw [hsep] at ht
      have htail : v ++ closeBracket = atVersionSepTail ++ t := by
        have ht2 : '"' :: (v ++ closeBracket) = '"' :: (atVersionSepTail ++ t) := by
          simpa using ht
        exact (List.cons.injEq _ _ _ _).mp ht2 |>.2
      have htake := congrArg (fun l => List.take 13 l) htail
      simp only at htake
      rw [List.take_append_of_le_length (by omega)] at htake
      rw [List.take_append_of_le_length (by decide)] at htake
      have hst13 : atVersionSepTail.take 13 = atVersionSepTail := by decide
      rw [hst13] at htake
      have hmem : '"' ∈ atVersionSepTail := by decide
      rw [← htake] at hmem
      exact h2 (List.take_subset 13 v hmem)
    have hl := congrArg List.length ht
    simp only [List.length_cons, List.length_append] at hl
    have hcb : closeBracket.length = 2 := by decide
    have hav : atVersionSep.length = 14 := by decide
    rw [hcb, hav] at hl
    omega
  · rw [if_neg hp]

theorem lvAll_septail (v : List Char) (h2 : '"' ∉ v) :
    lvAll (atVersionSepTail ++ (v ++ closeBracket)) = none := by
  have hst : atVersionSepTail = [' ', 'a', 't', ' ', 'v', 'e', 'r', 's', 'i', 'o', 'n', ' ', '"'] := by
    decide
  rw [hst]
  simp only [List.cons_append, List.nil_append]
  exact lvAll_cons_none (by decide) (lvAll_cons_none (by decide) (lvAll_cons_none (by decide)
    (lvAll_cons_none (by decide) (lvAll_cons_none (by decide) (lvAll_cons_none (by decide)
    (lvAll_cons_none (by decide) (lvAll_cons_none (by decide) (lvAll_cons_none (by decide)
    (lvAll_cons_none (by decide) (lvAll_cons_none (by decide) (lvAll_cons_none (by decide)
    (lvAll_quote_version_close v h2))))))))))))

theorem lvB_version_close (v : List Char) (h1 : '\n' ∉ v) (h2 : '"' ∉ v) :
    lvB (v ++ closeBracket) = some v := by
  induction v with
  | nil => decide
  | cons c cs ih =>
    have hc : c ≠ '\n' := fun h => h1 (h ▸ List.mem_cons_self c cs)
    have hrec := ih (fun h => h1 (List.mem_cons_of_mem c h))
      (fun h => h2 (List.mem_cons_of_mem c h))
    rw [List.cons_append, lvB, if_neg hc, hrec]
    rfl

theorem captureB_version_close (v : List Char) (h1 : '\n' ∉ v) (h2 : '"' ∉ v)
    (hne : v ≠ []) : captureB (v ++ closeBracket) = some v := by
  match v, hne with
  | c :: cs, _ =>
    have hc : c ≠ '\n' := fun h => h1 (h ▸ List.mem_cons_self c cs)
    rw [List.cons_append, captureB, if_neg hc,
      lvB_version_close cs (fun h => h1 (List.mem_cons_of_mem c h))
        (fun h => h2 (List.mem_cons_of_mem c h))]
    rfl

theorem lvAll_struct (v : List Char) (h1 : '\n' ∉ v) (h2 : '"' ∉ v) (hne : v ≠ []) :
    lvAll (atVersionSep ++ (v ++ closeBracket)) = some v := by
  have hsep : atVersionSep = '"' :: atVersionSepTail := by decide
  have hstep : atVersionSep ++ (v ++ closeBracket) =
      '"' :: (atVersionSepTail ++ (v ++ closeBracket)) := by rw [hsep]; rfl
  rw [hstep, lvAll, if_neg (by decide : ¬('"' : Char) = '\n'), lvAll_septail v h2]
  show (if atVersionSep.isPrefixOf ('"' :: (atVersionSepTail ++ (v ++ closeBracket))) = true then
      captureB (('"' :: (atVersionSepTail ++ (v ++ closeBracket))).drop atVersionSep.length)
    else none) = some v
  rw [← hstep, isPrefixOf_append_self, if_pos rfl, List.drop_left]
  exact captureB_version_close v h1 h2 hne

theorem lvAll_pre (u v : List Char) (hu : '\n' ∉ u) (h1 : '\n' ∉ v) (h2 : '"' ∉ v)
    (hne : v ≠ []) :
    lvAll (u ++ (atVersionSep ++ (v ++ closeBracket))) = some v := by
  induction u with
  | nil => rw [List.nil_append]; exact lvAll_struct v h1 h2 hne
  | cons c cs ih =>
    have hc : c ≠ '\n' := fun h => hu (h ▸ List.mem_cons_self c cs)
    rw [List.cons_append, lvAll, if_neg hc, ih (fun h => hu (List.mem_cons_of_mem c h))]

theorem matchAfterMarker_msg (w nm v : List Char) (hw : '\n' ∉ w) (hn : '\n' ∉ nm)
    (hnne : nm ≠ []) (h1 : '\n' ∉ v) (h2 : '"' ∉ v) (hne : v ≠ []) :
    matchAfterMarker (w ++ (nm ++ (atVersionSep ++ (v ++ closeBracket)))) = some v := by
  cases w with
  | nil =>
    rw [List.nil_append]
    match nm, hnne with
    | c :: cs, _ =>
      have hc : c ≠ '\n' := fun h => hn (h ▸ List.mem_cons_self c cs)
      rw [List.cons_append, matchAfterMarker, if_neg hc]
      exact lvAll_pre cs v (fun h => hn (List.mem_cons_of_mem c h)) h1 h2 hne
  | cons c cs =>
    have hc : c ≠ '\n' := fun h => hw (h ▸ List.mem_cons_self c cs)
    rw [List.cons_append, matchAfterMarker, if_neg hc]
    have hcs : '\n' ∉ cs ++ nm := by
      intro h
      rcases List.mem_append.mp h with h | h
      · exact hw (List.mem_cons_of_mem c h)
      · exact hn h
    have := lvAll_pre (cs ++ nm) v hcs h1 h2 hne
    rwa [List.append_assoc] at this

theorem findTrailerVersion_roundtrip (pre nm v : List Char) (hpre : '\n' ∉ pre)
    (hn : '\n' ∉ nm) (hnne : nm ≠ []) (h1 : '\n' ∉ v) (h2 : '"' ∉ v) (hne : v ≠ []) :
    findTrailerVersion
      (pre ++ (validatedMarker ++ (nm ++ (atVersionSep ++ (v ++ closeBracket))))) = some v := by
  induction pre with
  | nil =>
    rw [List.nil_append]
    have hm : validatedMarker = ' ' :: ("[validated with Secret \"").data := by decide
    have hstep : validatedMarker ++ (nm ++ (atVersionSep ++ (v ++ closeBracket))) =
        ' ' :: (("[validated with Secret \"").data ++
          (nm ++ (atVersionSep ++ (v ++ closeBracket)))) := by rw [hm]; rfl
    rw [hstep, findTrailerVersion, ← hstep, isPrefixOf_append_self, if_pos rfl, List.drop_left]
    have hmm := matchAfterMarker_msg [] nm v (by simp) hn hnne h1 h2 hne
    rw [List.nil_append] at hmm
    rw [hmm]
  | cons c cs ih =>
    have hcs : '\n' ∉ cs := fun h => hpre (List.mem_cons_of_mem c h)
    rw [List.cons_append, findTrailerVersion]
    by_cases hp : validatedMarker.isPrefixOf
        (c :: (cs ++ (validatedMarker ++ (nm ++ (atVersionSep ++ (v ++ closeBracket)))))) = true
    · rw [if_pos hp]
      have hre : c :: (cs ++ (validatedMarker ++ (nm ++ (atVersionSep ++ (v ++ closeBracket))))) =
          ((c :: cs) ++ validatedMarker) ++ (nm ++ (atVersionSep ++ (v ++ closeBracket))) := by
        simp [List.append_assoc]
      rw [hre, List.drop_append_of_le_length (by simp; omega)]
      have hw : '\n' ∉ ((c :: cs) ++ validatedMarker).drop validatedMarker.length := by
        intro h
        have hmem := List.drop_subset validatedMarker.length ((c :: cs) ++ validatedMarker) h
        rcases List.mem_append.mp hmem with h | h
        · exact hpre h
        · have : '\n' ∉ validatedMarker := by decide
          exact this h
      rw [matchAfterMarker_msg (((c :: cs) ++ validatedMarker).drop validatedMarker.length)
        nm v hw hn hnne h1 h2 hne]
    · rw [if_neg hp]
      exact ih hcs

theorem lit_validated : ("\" [validated with Secret \"").data = '"' :: validatedMarker := by
  decide

theorem lit_atVersion : ("\" at version \"").data = atVersionSep := rfl

theorem lit_close : ("\"]").data = closeBracket := rfl

theorem testConnectionSuccessMessage_data (host user nm version : String) :
    (testConnectionSuccessMessage host user nm version).data =
      (("successfully able to connect to \"").data ++ host.data ++
        ("\" and bind as user \"").data ++ user.data ++ ['"']) ++
      (validatedMarker ++ (nm.data ++ (atVersionSep ++ (version.data ++ closeBracket)))) := by
  simp [testConnectionSuccessMessage, strDataAppend, validatedMarker, atVersionSep,
    closeBracket, List.append_assoc]

theorem dryRunSuccessMessage_data (dru rname ruid nm version : String) :
    (dryRunSuccessMessage dru rname ruid nm version).data =
      (("successful authentication dry run for end user \"").data ++ dru.data ++
        ("\": selected username \"").data ++ rname.data ++
        ("\" and UID \"").data ++ ruid.data ++ ['"']) ++
      (validatedMarker ++ (nm.data ++ (atVersionSep ++ (version.data ++ closeBracket)))) := by
  simp [dryRunSuccessMessage, strDataAppend, validatedMarker, atVersionSep,
    closeBracket, List.append_assoc]

/-- Claim C1 (amended): for every LDAPConnectionValid=True condition written by
`testConnection` or `dryRunAuthentication`, reparsing the message with the
secret-version parser regexp yields exactly the observed bind-secret
resource-version, provided the interpolated fields contain no newline, the
secret name and the resource-version are nonempty, and the resource-version
contains no double-quote character.  (The unrestricted claim is refuted by
`trailer_roundtrip_fails_for_arbitrary_versions`.) -/
theorem trailer_roundtrip_for_quote_free_versions
    (host user dru rname ruid nm version : String)
    (hhost : '\n' ∉ host.data) (huser : '\n' ∉ user.data)
    (hdru : '\n' ∉ dru.data) (hrn : '\n' ∉ rname.data) (hru : '\n' ∉ ruid.data)
    (hnm : '\n' ∉ nm.data) (hnmne : nm.data ≠ [])
    (hv1 : '\n' ∉ version.data) (hv2 : '"' ∉ version.data) (hvne : version.data ≠ []) :
    secretVersionParse (testConnectionSuccessMessage host user nm version) =
        some version.data ∧
      secretVersionParse (dryRunSuccessMessage dru rname ruid nm version) =
        some version.data := by
  constructor
  · rw [secretVersionParse, testConnectionSuccessMessage_data]
    apply findTrailerVersion_roundtrip _ _ _ ?_ hnm hnmne hv1 hv2 hvne
    intro h
    simp only [List.mem_append, List.mem_singleton] at h
    rcases h with ((((h | h) | h) | h) | h) <;>
      first
        | exact absurd h (by decide)
        | exact hhost h
        | exact huser h
  · rw [secretVersionParse, dryRunSuccessMessage_data]
    apply findTrailerVersion_roundtrip _ _ _ ?_ hnm hnmne hv1 hv2 hvne
    intro h
    simp only [List.mem_append, List.mem_singleton] at h
    rcases h with ((((((h | h) | h) | h) | h) | h) | h) <;>
      first
        | exact absurd h (by decide)
        | exact hdru h
        | exact hrn h
        | exact hru h

/-- Witness for `trailer_roundtrip_for_quote_free_versions` at concrete inputs. -/
theorem trailer_roundtrip_for_quote_free_versions_witness :
    secretVersionParse
        (testConnectionSuccessMessage "ldap.example.com" "cn=admin" "bind-secret" "4711") =
        some ("4711").data ∧
      secretVersionParse
        (dryRunSuccessMessage "pinny" "pinny" "1000" "bind-secret" "4711") =
        some ("4711").data :=
  trailer_roundtrip_for_quote_free_versions "ldap.example.com" "cn=admin" "pinny" "pinny"
    "1000" "bind-secret" "4711" (by decide) (by decide) (by decide) (by decide) (by decide)
    (by decide) (by decide) (by decide) (by decide) (by decide)

/-- Claim C1 as stated is false: for a resource-version that itself contains
the text fragment surrounding the capture group, the greedy regexp captures
only a suffix of the version.  Concretely, for version `4711" at version "9`
the parser yields `9`. -/
theorem trailer_roundtrip_fails_for_arbitrary_versions :
    secretVersionParse
        (testConnectionSuccessMessage "host" "admin" "sec" "4711\" at version \"9") =
        some ("9").data ∧
      ("9" : String).data ≠ ("4711\" at version \"9" : String).data := by
  constructor
  · decide
  · decide

theorem hasPrevious_iff (upstream : LDAPIdentityProvider) (currentSecretVersion : String) :
    hasPreviousSuccessfulConditionForCurrentSpecGenerationAndSecretVersion
        upstream currentSecretVersion = true ↔
      ∃ c ∈ upstream.status.conditions,
        c.ctype = typeLDAPConnectionValid ∧ c.status = ConditionStatus.ctrue ∧
        c.observedGeneration = upstream.generation ∧
        findTrailerVersion c.message.data = some currentSecretVersion.data := by
  unfold hasPreviousSuccessfulConditionForCurrentSpecGenerationAndSecretVersion
  simp [List.any_eq_true]

theorem validateUpstream_record_none_iff (env : LDAPEnv) (u : LDAPIdentityProvider) :
    (validateUpstream env u).record = none ↔
      (validateUpstream env u).hadErrorCondition = true := by
  unfold validateUpstream
  dsimp only
  split <;> simp_all

theorem updateStatus_hadError_iff (env : LDAPEnv) (u : LDAPIdentityProvider)
    (conditions : List Condition) :
    (updateStatus env u conditions).hadErrorCondition = true ↔
      ∃ c ∈ conditions, c.status = ConditionStatus.cfalse := by
  unfold updateStatus mergeConditions
  simp [List.any_eq_true]

theorem validateSecret_ctype (env : LDAPEnv) (u : LDAPIdentityProvider)
    (config : ProviderConfig) :
    (validateSecret env u config).1.ctype = typeBindSecretValid := by
  rcases hget : env.getSecret u.nsName u.spec.bind.secretName with e | s
  · simp only [validateSecret, hget]
  · simp only [validateSecret, hget]
    split_ifs <;> rfl

theorem validateSecret_status_or (env : LDAPEnv) (u : LDAPIdentityProvider)
    (config : ProviderConfig) :
    (validateSecret env u config).1.status = ConditionStatus.ctrue ∨
      (validateSecret env u config).1.status = ConditionStatus.cfalse := by
  rcases hget : env.getSecret u.nsName u.spec.bind.secretName with e | s
  · simp [validateSecret, hget]
  · simp only [validateSecret, hget]
    split_ifs <;> simp

theorem validateTLSConfig_ctype (env : LDAPEnv) (u : LDAPIdentityProvider)
    (config : ProviderConfig) :
    (validateTLSConfig env u config).1.ctype = typeTLSConfigurationValid := by
  rcases htls : u.spec.tls with _ | t
  · simp only [validateTLSConfig, htls]
    rfl
  · rcases hb : env.b64decode t.certificateAuthorityData with e | bundle <;>
      simp only [validateTLSConfig, htls, hb] <;>
      split_ifs <;> rfl

theorem validateTLSConfig_status_or (env : LDAPEnv) (u : LDAPIdentityProvider)
    (config : ProviderConfig) :
    (validateTLSConfig env u config).1.status = ConditionStatus.ctrue ∨
      (validateTLSConfig env u config).1.status = ConditionStatus.cfalse := by
  rcases htls : u.spec.tls with _ | t
  · simp only [validateTLSConfig, htls]
    exact Or.inl rfl
  · rcases hb : env.b64decode t.certificateAuthorityData with e | bundle <;>
      simp only [validateTLSConfig, htls, hb] <;>
      split_ifs <;>
      simp [validTLSCondition, invalidTLSCondition]

/-- Claim C2: when the declarative checks passed, the network validation
validateFinishedConfig is skipped (returns nil, so no new
LDAPConnectionValid condition is appended) if and only if the existing
status carries a condition of type LDAPConnectionValid with status True,
observedGeneration equal to the object's current generation, and a message
trailer that parses to the currently observed bind-secret
resource-version. -/
theorem validateFinishedConfig_skips_iff_previous_success (env : LDAPEnv)
    (upstream : LDAPIdentityProvider) (config : ProviderConfig)
    (currentSecretVersion : String) :
    validateFinishedConfig env upstream config currentSecretVersion = none ↔
      ∃ c ∈ upstream.status.conditions,
        c.ctype = typeLDAPConnectionValid ∧ c.status = ConditionStatus.ctrue ∧
        c.observedGeneration = upstream.generation ∧
        findTrailerVersion c.message.data = some currentSecretVersion.data := by
  rw [← hasPrevious_iff]
  unfold validateFinishedConfig
  by_cases h : hasPreviousSuccessfulConditionForCurrentSpecGenerationAndSecretVersion
      upstream currentSecretVersion = true
  · simp [h]
  · rw [if_neg h]
    constructor
    · intro hx
      split at hx <;> simp at hx
    · intro hx
      exact absurd hx h

/-- Claim C3: one Sync call over a successfully listed set of providers
publishes to the cache, as a single whole-snapshot value, exactly the
records of the providers whose validation produced no error condition (an
empty list publishes the empty set), and returns synthetic requeue if and
only if at least one provider had an error condition. -/
theorem sync_publishes_validated_snapshot (env : LDAPEnv)
    (ups : List LDAPIdentityProvider) :
    (Sync env (Except.ok ups)).published =
        some (ups.filterMap fun u => (validateUpstream env u).record) ∧
      (∀ u, (validateUpstream env u).record = none ↔
        (validateUpstream env u).hadErrorCondition = true) ∧
      ((Sync env (Except.ok ups)).error = SyncError.syntheticRequeue ↔
        ∃ u ∈ ups, (validateUpstream env u).hadErrorCondition = true) ∧
      Sync env (Except.ok ([] : List LDAPIdentityProvider)) = ⟨some [], SyncError.noError⟩ := by
  refine ⟨?_, fun u => validateUpstream_record_none_iff env u, ?_, rfl⟩
  · unfold Sync
    dsimp only
    rw [List.filterMap_map]
    rfl
  · unfold Sync
    dsimp only
    by_cases h : ((ups.map fun u => (validateUpstream env u).record).any Option.isNone) = true
    · rw [if_pos h]
      simp only [List.any_eq_true, List.mem_map] at h
      obtain ⟨x, ⟨u, hu, hxu⟩, hn⟩ := h
      rw [← hxu] at hn
      simp only [true_iff]
      exact ⟨u, hu, (validateUpstream_record_none_iff env u).mp (Option.isNone_iff_eq_none.mp hn)⟩
    · rw [if_neg h]
      simp only [List.any_eq_true, List.mem_map] at h
      constructor
      · intro hx
        simp at hx
      · rintro ⟨u, hu, he⟩
        exact absurd ⟨(validateUpstream env u).record, ⟨u, hu, rfl⟩,
          Option.isNone_iff_eq_none.mpr ((validateUpstream_record_none_iff env u).mpr he)⟩ h

/-- Claim C10: when listing the LDAP identity providers fails, Sync returns
the wrapped listing error immediately and publishes nothing to the IDP
validation cache, leaving the previously published set unchanged. -/
theorem sync_list_error_publishes_nothing (env : LDAPEnv) (e : String) :
    Sync env (Except.error e) =
      ⟨none, SyncError.listError ("failed to list LDAPIdentityProviders: " ++ e)⟩ := rfl

theorem sync_singleton_requeue (env : LDAPEnv) (u : LDAPIdentityProvider)
    (h : (validateUpstream env u).record = none) :
    (Sync env (Except.ok [u])).error = SyncError.syntheticRequeue := by
  unfold Sync
  dsimp only
  simp [h]

/-- When one of the two declarative checks is not True, validateUpstream
computes only those two conditions, returns nil, and the surrounding sync
requests a synthetic requeue. -/
theorem declarative_failure_excludes (env : LDAPEnv) (u : LDAPIdentityProvider)
    (h : (validateSecret env u (initialConfig u)).1.status ≠ ConditionStatus.ctrue ∨
      (validateTLSConfig env u (validateSecret env u (initialConfig u)).2.2).1.status ≠
        ConditionStatus.ctrue) :
    (validateUpstream env u).conditionsComputed =
        [(validateSecret env u (initialConfig u)).1,
         (validateTLSConfig env u (validateSecret env u (initialConfig u)).2.2).1] ∧
      (validateUpstream env u).record = none ∧
      (Sync env (Except.ok [u])).error = SyncError.syntheticRequeue := by
  have hguard : ¬((validateSecret env u (initialConfig u)).1.status = ConditionStatus.ctrue ∧
      (validateTLSConfig env u (validateSecret env u (initialConfig u)).2.2).1.status =
        ConditionStatus.ctrue) :=
    fun hc => h.elim (fun hh => hh hc.1) (fun hh => hh hc.2)
  have hconds : (validateUpstream env u).conditionsComputed =
      [(validateSecret env u (initialConfig u)).1,
       (validateTLSConfig env u (validateSecret env u (initialConfig u)).2.2).1] := by
    unfold validateUpstream
    dsimp only
    rw [if_neg hguard]
  have hfalse : ∃ c ∈ (validateUpstream env u).conditionsComputed,
      c.status = ConditionStatus.cfalse := by
    rw [hconds]
    rcases h with h | h
    · rcases validateSecret_status_or env u (initialConfig u) with ht | hf
      · exact absurd ht h
      · exact ⟨_, List.mem_cons_self _ _, hf⟩
    · rcases validateTLSConfig_status_or env u
          (validateSecret env u (initialConfig u)).2.2 with ht | hf
      · exact absurd ht h
      · exact ⟨_, List.mem_cons_of_mem _ (List.mem_cons_self _ _), hf⟩
  have heq : (validateUpstream env u).hadErrorCondition =
      (updateStatus env u (validateUpstream env u).conditionsComputed).hadErrorCondition := rfl
  have hhe : (validateUpstream env u).hadErrorCondition = true := by
    rw [heq]
    exact (updateStatus_hadError_iff env u _).mpr hfalse
  have hrec := (validateUpstream_record_none_iff env u).mpr hhe
  exact ⟨hconds, hrec, sync_singleton_requeue env u hrec⟩

theorem withStatus_eq_self (u : LDAPIdentityProvider) (s : LDAPIdentityProviderStatus) :
    ({ u with status := s } = u) ↔ s = u.status := by
  cases u
  simp [LDAPIdentityProvider.mk.injEq]

theorem updateStatus_phase_ready_iff (env : LDAPEnv) (u : LDAPIdentityProvider)
    (conditions : List Condition) :
    (updateStatus env u conditions).updated.status.phase = LDAPPhase.ready ↔
      ∀ c ∈ conditions, c.status ≠ ConditionStatus.cfalse := by
  have hiff := updateStatus_hadError_iff env u conditions
  by_cases hb : (updateStatus env u conditions).hadErrorCondition = true
  · have hex := hiff.mp hb
    have hph : (updateStatus env u conditions).updated.status.phase = LDAPPhase.error := by
      unfold updateStatus at hb ⊢
      dsimp only at hb ⊢
      rw [if_pos hb]
    rw [hph]
    constructor
    · intro habs
      exact absurd habs (by simp)
    · intro hall
      obtain ⟨c, hc, hcf⟩ := hex
      exact absurd hcf (hall c hc)
  · have hph : (updateStatus env u conditions).updated.status.phase = LDAPPhase.ready := by
      unfold updateStatus at hb ⊢
      dsimp only at hb ⊢
      rw [if_neg hb]
    rw [hph]
    simp only [true_iff]
    intro c hc hcf
    exact hb (hiff.mpr ⟨c, hc, hcf⟩)

theorem updateStatus_phase_error_iff (env : LDAPEnv) (u : LDAPIdentityProvider)
    (conditions : List Condition) :
    (updateStatus env u conditions).updated.status.phase = LDAPPhase.error ↔
      ∃ c ∈ conditions, c.status = ConditionStatus.cfalse := by
  have hready := updateStatus_phase_ready_iff env u conditions
  have hiff := updateStatus_hadError_iff env u conditions
  by_cases hb : (updateStatus env u conditions).hadErrorCondition = true
  · have hph : (updateStatus env u conditions).updated.status.phase = LDAPPhase.error := by
      unfold updateStatus at hb ⊢
      dsimp only at hb ⊢
      rw [if_pos hb]
    rw [hph]
    simp only [true_iff]
    exact hiff.mp hb
  · have hph : (updateStatus env u conditions).updated.status.phase = LDAPPhase.ready := by
      unfold updateStatus at hb ⊢
      dsimp only at hb ⊢
      rw [if_neg hb]
    rw [hph]
    constructor
    · intro habs
      exact absurd habs (by simp)
    · intro hex
      exact absurd (hiff.mpr hex) hb

theorem updateStatus_write_none_iff (env : LDAPEnv) (u : LDAPIdentityProvider)
    (conditions : List Condition) :
    (updateStatus env u conditions).write = none ↔
      (updateStatus env u conditions).updated.status = u.status := by
  unfold updateStatus
  dsimp only
  constructor
  · intro hw
    by_cases he : ({ u with
        status := ⟨if (mergeConditions conditions u.generation u.status.conditions env.now).2 = true
            then LDAPPhase.error else LDAPPhase.ready,
          (mergeConditions conditions u.generation u.status.conditions env.now).1⟩ } :
        LDAPIdentityProvider) = u
    · exact congrArg LDAPIdentityProvider.status he
    · rw [if_neg he] at hw
      exact absurd hw (by simp)
  · intro hs
    rw [if_pos ((withStatus_eq_self u _).mpr hs)]

/-- Claim C8: for every provider where BindSecretValid or
TLSConfigurationValid is not True, no LDAPConnectionValid condition is
computed in that sync (the connection or dry-run check is never attempted),
the provider is excluded from the validated set, and a synthetic requeue is
requested. -/
theorem no_connection_condition_unless_declarative_valid (env : LDAPEnv)
    (u : LDAPIdentityProvider)
    (h : (validateSecret env u (initialConfig u)).1.status ≠ ConditionStatus.ctrue ∨
      (validateTLSConfig env u (validateSecret env u (initialConfig u)).2.2).1.status ≠
        ConditionStatus.ctrue) :
    (∀ c ∈ (validateUpstream env u).conditionsComputed, c.ctype ≠ typeLDAPConnectionValid) ∧
      (validateUpstream env u).record = none ∧
      (Sync env (Except.ok [u])).error = SyncError.syntheticRequeue := by
  obtain ⟨hconds, hrec, hsync⟩ := declarative_failure_excludes env u h
  refine ⟨?_, hrec, hsync⟩
  intro c hc
  rw [hconds] at hc
  simp only [List.mem_cons, List.not_mem_nil, or_false] at hc
  rcases hc with hc | hc
  · rw [hc, validateSecret_ctype]
    decide
  · rw [hc, validateTLSConfig_ctype]
    decide

/-- Witness for `no_connection_condition_unless_declarative_valid`: a
provider whose bind secret is absent. -/
theorem no_connection_condition_unless_declarative_valid_witness :
    (∀ c ∈ (validateUpstream (sampleEnv (Except.error "secret \"bind-secret\" not found")
          (Except.ok "pem") DryRunResult.notAuthenticated) sampleUpstream).conditionsComputed,
        c.ctype ≠ typeLDAPConnectionValid) ∧
      (validateUpstream (sampleEnv (Except.error "secret \"bind-secret\" not found")
          (Except.ok "pem") DryRunResult.notAuthenticated) sampleUpstream).record = none ∧
      (Sync (sampleEnv (Except.error "secret \"bind-secret\" not found")
          (Except.ok "pem") DryRunResult.notAuthenticated)
        (Except.ok [sampleUpstream])).error = SyncError.syntheticRequeue :=
  no_connection_condition_unless_declarative_valid _ sampleUpstream (Or.inl (by decide))

/-- Claim C4 as stated is false: for a provider whose referenced bind
secret exists with a non-basic-auth type, the sync does request a requeue
(validateUpstream returns nil, so Sync returns ErrSyntheticRequeue),
contrary to the claim that no requeue is requested. -/
theorem wrong_type_secret_does_requeue :
    (Sync (sampleEnv (Except.ok sampleWrongTypeSecret) (Except.ok "pem")
          DryRunResult.notAuthenticated)
        (Except.ok [sampleUpstream])).error = SyncError.syntheticRequeue ∧
      (validateSecret (sampleEnv (Except.ok sampleWrongTypeSecret) (Except.ok "pem")
          DryRunResult.notAuthenticated)
        sampleUpstream (initialConfig sampleUpstream)).1.status = ConditionStatus.cfalse := by
  constructor
  · decide
  · decide

/-- Claim C4 (amended): for every provider whose referenced bind secret
exists but has a type other than basic-auth, the sync sets BindSecretValid
to False (reason WrongType), excludes the provider from the validated set,
and requests a synthetic requeue. -/
theorem wrong_type_secret_condition_false_and_requeue (env : LDAPEnv)
    (u : LDAPIdentityProvider) (s : Secret)
    (hs : env.getSecret u.nsName u.spec.bind.secretName = Except.ok s)
    (ht : s.secretType ≠ ldapBindAccountSecretType) :
    (validateSecret env u (initialConfig u)).1.status = ConditionStatus.cfalse ∧
      (validateSecret env u (initialConfig u)).1.reason = reasonWrongType ∧
      (validateUpstream env u).record = none ∧
      (Sync env (Except.ok [u])).error = SyncError.syntheticRequeue := by
  have hsec : (validateSecret env u (initialConfig u)).1.status = ConditionStatus.cfalse ∧
      (validateSecret env u (initialConfig u)).1.reason = reasonWrongType := by
    simp only [validateSecret, hs]
    rw [if_pos ht]
    exact ⟨rfl, rfl⟩
  have hne : (validateSecret env u (initialConfig u)).1.status ≠ ConditionStatus.ctrue := by
    rw [hsec.1]
    decide
  obtain ⟨_, hrec, hsync⟩ := declarative_failure_excludes env u (Or.inl hne)
  exact ⟨hsec.1, hsec.2, hrec, hsync⟩

/-- Witness for `wrong_type_secret_condition_false_and_requeue`. -/
theorem wrong_type_secret_condition_false_and_requeue_witness :
    (validateSecret (sampleEnv (Except.ok sampleWrongTypeSecret) (Except.ok "pem")
          DryRunResult.notAuthenticated)
        sampleUpstream (initialConfig sampleUpstream)).1.reason = reasonWrongType ∧
      (Sync (sampleEnv (Except.ok sampleWrongTypeSecret) (Except.ok "pem")
          DryRunResult.notAuthenticated)
        (Except.ok [sampleUpstream])).error = SyncError.syntheticRequeue := by
  have h := wrong_type_secret_condition_false_and_requeue
    (sampleEnv (Except.ok sampleWrongTypeSecret) (Except.ok "pem")
      DryRunResult.notAuthenticated)
    sampleUpstream sampleWrongTypeSecret rfl (by decide)
  exact ⟨h.2.1, h.2.2.2⟩

/-- Claim C5 as stated is false in its reason clause: a basic-auth secret
with a missing username entry is rejected with the distinct reason
MissingKeys, not WrongType. -/
theorem missing_keys_secret_not_wrong_type :
    (validateSecret (sampleEnv (Except.ok sampleMissingUsernameSecret) (Except.ok "pem")
          DryRunResult.notAuthenticated)
        sampleUpstream (initialConfig sampleUpstream)).1.reason = reasonMissingKeys ∧
      (validateSecret (sampleEnv (Except.ok sampleMissingUsernameSecret) (Except.ok "pem")
          DryRunResult.notAuthenticated)
        sampleUpstream (initialConfig sampleUpstream)).1.status = ConditionStatus.cfalse ∧
      reasonMissingKeys ≠ reasonWrongType := by
  refine ⟨by decide, by decide, by decide⟩

/-- Claim C5 (amended): BindSecretValid is True iff the referenced secret
exists with type basic-auth and non-empty username and password entries; an
absent secret yields False with reason NotFound; a secret of the wrong type
yields False with reason WrongType; a basic-auth secret with missing or
empty username or password yields False with the distinct reason
MissingKeys. -/
theorem validateSecret_characterization (env : LDAPEnv) (u : LDAPIdentityProvider)
    (config : ProviderConfig) :
    ((validateSecret env u config).1.status = ConditionStatus.ctrue ↔
      ∃ s, env.getSecret u.nsName u.spec.bind.secretName = Except.ok s ∧
        s.secretType = ldapBindAccountSecretType ∧
        s.getData basicAuthUsernameKey ≠ "" ∧ s.getData basicAuthPasswordKey ≠ "") ∧
    (∀ e, env.getSecret u.nsName u.spec.bind.secretName = Except.error e →
      (validateSecret env u config).1.status = ConditionStatus.cfalse ∧
      (validateSecret env u config).1.reason = reasonNotFound ∧
      (validateSecret env u config).2.1 = "") ∧
    (∀ s, env.getSecret u.nsName u.spec.bind.secretName = Except.ok s →
      s.secretType ≠ ldapBindAccountSecretType →
      (validateSecret env u config).1.status = ConditionStatus.cfalse ∧
      (validateSecret env u config).1.reason = reasonWrongType ∧
      (validateSecret env u config).2.1 = s.resourceVersion) ∧
    (∀ s, env.getSecret u.nsName u.spec.bind.secretName = Except.ok s →
      s.secretType = ldapBindAccountSecretType →
      (s.getData basicAuthUsernameKey = "" ∨ s.getData basicAuthPasswordKey = "") →
      (validateSecret env u config).1.status = ConditionStatus.cfalse ∧
      (validateSecret env u config).1.reason = reasonMissingKeys ∧
      (validateSecret env u config).2.1 = s.resourceVersion) := by
  rcases hget : env.getSecret u.nsName u.spec.bind.secretName with e | s
  · simp [validateSecret, hget]
  · by_cases hty : s.secretType = ldapBindAccountSecretType
    · by_cases hkeys : s.getData basicAuthUsernameKey = "" ∨ s.getData basicAuthPasswordKey = ""
      · simp [validateSecret, hget, hty, hkeys]
        intro h1
        rcases hkeys with hk | hk
        · exact absurd hk h1
        · exact hk
      · push_neg at hkeys
        simp [validateSecret, hget, hty, hkeys.1, hkeys.2]
    · simp [validateSecret, hget, hty]

/-- Witness for `validateSecret_characterization` at concrete inputs: a
valid basic-auth secret yields True, and a missing-username secret yields
reason MissingKeys. -/
theorem validateSecret_characterization_witness :
    (validateSecret (sampleEnv (Except.ok sampleBasicAuthSecret) (Except.ok "pem")
          DryRunResult.notAuthenticated)
        sampleUpstream (initialConfig sampleUpstream)).1.status = ConditionStatus.ctrue ∧
      (validateSecret (sampleEnv (Except.ok sampleMissingUsernameSecret) (Except.ok "pem")
          DryRunResult.notAuthenticated)
        sampleUpstream (initialConfig sampleUpstream)).1.reason = reasonMissingKeys := by
  constructor
  · exact (validateSecret_characterization
        (sampleEnv (Except.ok sampleBasicAuthSecret) (Except.ok "pem")
          DryRunResult.notAuthenticated)
        sampleUpstream (initialConfig sampleUpstream)).1.mpr
      ⟨sampleBasicAuthSecret, rfl, rfl, by decide, by decide⟩
  · exact ((validateSecret_characterization
        (sampleEnv (Except.ok sampleMissingUsernameSecret) (Except.ok "pem")
          DryRunResult.notAuthenticated)
        sampleUpstream (initialConfig sampleUpstream)).2.2.2 sampleMissingUsernameSecret
      rfl rfl (Or.inl (by decide))).2.1

/-- Claim C6: validateTLSConfig returns True with message "no TLS
configuration provided" when spec.tls is absent, True with message "loaded
TLS configuration" and an unchanged config when caData is empty, and
otherwise base64-decodes caData and requires at least one PEM certificate,
attaching the decoded bundle to the candidate config on success; invalid
base64 or an empty PEM parse yields False with reason InvalidTLSConfig. -/
theorem validateTLSConfig_characterization (env : LDAPEnv)
    (u : LDAPIdentityProvider) (config : ProviderConfig) :
    (u.spec.tls = none →
      validateTLSConfig env u config = (validTLSCondition noTLSConfigurationMessage, config)) ∧
    (∀ t, u.spec.tls = some t → t.certificateAuthorityData = "" →
      validateTLSConfig env u config =
        (validTLSCondition loadedTLSConfigurationMessage, config)) ∧
    (∀ t e, u.spec.tls = some t → t.certificateAuthorityData ≠ "" →
      env.b64decode t.certificateAuthorityData = Except.error e →
      validateTLSConfig env u config =
        (invalidTLSCondition ("certificateAuthorityData is invalid: " ++ e), config)) ∧
    (∀ t bundle, u.spec.tls = some t → t.certificateAuthorityData ≠ "" →
      env.b64decode t.certificateAuthorityData = Except.ok bundle →
      env.pemAppendCerts bundle = false →
      validateTLSConfig env u config =
        (invalidTLSCondition ("certificateAuthorityData is invalid: " ++ errNoCertificates),
         config)) ∧
    (∀ t bundle, u.spec.tls = some t → t.certificateAuthorityData ≠ "" →
      env.b64decode t.certificateAuthorityData = Except.ok bundle →
      env.pemAppendCerts bundle = true →
      validateTLSConfig env u config =
        (validTLSCondition loadedTLSConfigurationMessage,
         { config with caBundle := some bundle })) ∧
    (∀ m, (validTLSCondition m).status = ConditionStatus.ctrue ∧
      (invalidTLSCondition m).status = ConditionStatus.cfalse ∧
      (invalidTLSCondition m).reason = reasonInvalidTLSConfig) := by
  refine ⟨?_, ?_, ?_, ?_, ?_, fun m => ⟨rfl, rfl, rfl⟩⟩
  · intro h
    simp [validateTLSConfig, h]
  · intro t ht hca
    simp [validateTLSConfig, ht, hca]
  · intro t e ht hca hb
    simp [validateTLSConfig, ht, hca, hb]
  · intro t bundle ht hca hb hp
    simp [validateTLSConfig, ht, hca, hb, hp]
  · intro t bundle ht hca hb hp
    simp [validateTLSConfig, ht, hca, hb, hp]

/-- Witness for `validateTLSConfig_characterization`: the no-TLS branch and
the invalid-base64 branch at concrete inputs. -/
theorem validateTLSConfig_characterization_witness :
    validateTLSConfig (sampleEnv (Except.ok sampleBasicAuthSecret) (Except.ok "pem")
        DryRunResult.notAuthenticated) sampleUpstream (initialConfig sampleUpstream) =
      (validTLSCondition noTLSConfigurationMessage, initialConfig sampleUpstream) ∧
    validateTLSConfig (sampleEnv (Except.ok sampleBasicAuthSecret)
        (Except.error "illegal base64 data at input byte 14")
        DryRunResult.notAuthenticated) sampleTLSUpstream (initialConfig sampleTLSUpstream) =
      (invalidTLSCondition
        ("certificateAuthorityData is invalid: " ++ "illegal base64 data at input byte 14"),
       initialConfig sampleTLSUpstream) := by
  constructor
  · exact (validateTLSConfig_characterization
      (sampleEnv (Except.ok sampleBasicAuthSecret) (Except.ok "pem")
        DryRunResult.notAuthenticated)
      sampleUpstream (initialConfig sampleUpstream)).1 rfl
  · exact (validateTLSConfig_characterization
      (sampleEnv (Except.ok sampleBasicAuthSecret)
        (Except.error "illegal base64 data at input byte 14")
        DryRunResult.notAuthenticated)
      sampleTLSUpstream (initialConfig sampleTLSUpstream)).2.2.1
      ⟨"invalid-base64!"⟩ "illegal base64 data at input byte 14" rfl (by decide) rfl

theorem strDataInj {a b : String} (h : a.data = b.data) : a = b := by
  cases a
  cases b
  exact congrArg String.mk h

/-- Claim C7 as stated is false: the user-not-found outcome and the
transport-error outcome of a dry run produce conditions with the same
reason, AuthenticationDryRunError; the reason field does not distinguish
them. -/
theorem dryrun_failure_reasons_coincide :
    (dryRunAuthentication (sampleEnv (Except.ok sampleBasicAuthSecret) (Except.ok "pem")
          (DryRunResult.failure "LDAP Result Code 200: network error"))
        sampleDryRunUpstream (initialConfig sampleDryRunUpstream) "4711").reason =
      (dryRunAuthentication (sampleEnv (Except.ok sampleBasicAuthSecret) (Except.ok "pem")
          DryRunResult.notAuthenticated)
        sampleDryRunUpstream (initialConfig sampleDryRunUpstream) "4711").reason ∧
    (dryRunAuthentication (sampleEnv (Except.ok sampleBasicAuthSecret) (Except.ok "pem")
          (DryRunResult.failure "LDAP Result Code 200: network error"))
        sampleDryRunUpstream (initialConfig sampleDryRunUpstream) "4711").status =
      ConditionStatus.cfalse ∧
    (dryRunAuthentication (sampleEnv (Except.ok sampleBasicAuthSecret) (Except.ok "pem")
          DryRunResult.notAuthenticated)
        sampleDryRunUpstream (initialConfig sampleDryRunUpstream) "4711").status =
      ConditionStatus.cfalse := by
  refine ⟨by decide, by decide, by decide⟩

/-- Claim C7 (amended): in a dry-run validation both failure outcomes carry
the same reason, AuthenticationDryRunError; they are distinguished by the
message instead: the transport-error condition appends the error text to
the fixed prefix while the user-not-found condition ends with "user not
found", so the two messages differ whenever the transport-error text is not
itself "user not found". -/
theorem dryrun_failures_distinguished_by_message (env1 env2 : LDAPEnv)
    (u : LDAPIdentityProvider) (config : ProviderConfig) (ver : String) (e : String)
    (h1 : env1.dryRunAuthenticateUser config u.spec.dryRunAuthenticationUsername =
      DryRunResult.failure e)
    (h2 : env2.dryRunAuthenticateUser config u.spec.dryRunAuthenticationUsername =
      DryRunResult.notAuthenticated) :
    (dryRunAuthentication env1 u config ver).reason = reasonAuthenticationDryRunError ∧
      (dryRunAuthentication env2 u config ver).reason = reasonAuthenticationDryRunError ∧
      (dryRunAuthentication env1 u config ver).status = ConditionStatus.cfalse ∧
      (dryRunAuthentication env2 u config ver).status = ConditionStatus.cfalse ∧
      (dryRunAuthentication env1 u config ver).message =
        "failed authentication dry run for end user \"" ++
          u.spec.dryRunAuthenticationUsername ++ "\": " ++ e ∧
      (dryRunAuthentication env2 u config ver).message =
        "failed authentication dry run for end user \"" ++
          u.spec.dryRunAuthenticationUsername ++ "\": user not found" ∧
      (e ≠ "user not found" →
        (dryRunAuthentication env1 u config ver).message ≠
          (dryRunAuthentication env2 u config ver).message) := by
  have hm1 : (dryRunAuthentication env1 u config ver).message =
      "failed authentication dry run for end user \"" ++
        u.spec.dryRunAuthenticationUsername ++ "\": " ++ e := by
    simp [dryRunAuthentication, h1]
  have hm2 : (dryRunAuthentication env2 u config ver).message =
      "failed authentication dry run for end user \"" ++
        u.spec.dryRunAuthenticationUsername ++ "\": user not found" := by
    simp [dryRunAuthentication, h2]
  refine ⟨by simp [dryRunAuthentication, h1], by simp [dryRunAuthentication, h2],
    by simp [dryRunAuthentication, h1], by simp [dryRunAuthentication, h2], hm1, hm2, ?_⟩
  intro hne heq
  apply hne
  rw [hm1, hm2] at heq
  have hd := congrArg String.data heq
  simp only [strDataAppend, List.append_assoc] at hd
  have hd2 := List.append_cancel_left hd
  have hd3 := List.append_cancel_left hd2
  have hlit : (['"', ':', ' ', 'u', 's', 'e', 'r', ' ', 'n', 'o', 't', ' ', 'f', 'o', 'u',
      'n', 'd'] : List Char) = ['"', ':', ' '] ++ ("user not found").data := by decide
  rw [hlit] at hd3
  exact strDataInj (List.append_cancel_left hd3)

/-- Witness for `dryrun_failures_distinguished_by_message`. -/
theorem dryrun_failures_distinguished_by_message_witness :
    (dryRunAuthentication (sampleEnv (Except.ok sampleBasicAuthSecret) (Except.ok "pem")
          (DryRunResult.failure "connection refused"))
        sampleDryRunUpstream (initialConfig sampleDryRunUpstream) "4711").reason =
      reasonAuthenticationDryRunError ∧
    (dryRunAuthentication (sampleEnv (Except.ok sampleBasicAuthSecret) (Except.ok "pem")
          (DryRunResult.failure "connection refused"))
        sampleDryRunUpstream (initialConfig sampleDryRunUpstream) "4711").message ≠
      (dryRunAuthentication (sampleEnv (Except.ok sampleBasicAuthSecret) (Except.ok "pem")
          DryRunResult.notAuthenticated)
        sampleDryRunUpstream (initialConfig sampleDryRunUpstream) "4711").message := by
  have h := dryrun_failures_distinguished_by_message
    (sampleEnv (Except.ok sampleBasicAuthSecret) (Except.ok "pem")
      (DryRunResult.failure "connection refused"))
    (sampleEnv (Except.ok sampleBasicAuthSecret) (Except.ok "pem")
      DryRunResult.notAuthenticated)
    sampleDryRunUpstream (initialConfig sampleDryRunUpstream) "4711" "connection refused"
    rfl rfl
  exact ⟨h.1, h.2.2.2.2.2.2 (by decide)⟩

/-- Claim C9: updateStatus computes phase Ready iff no computed condition
has status False (else Error), and issues an UpdateStatus write iff the
merged status differs from the stored object's status; when nothing changed
no write occurs. -/
theorem updateStatus_phase_and_write (env : LDAPEnv) (u : LDAPIdentityProvider)
    (conditions : List Condition) :
    ((updateStatus env u conditions).updated.status.phase = LDAPPhase.ready ↔
      ∀ c ∈ conditions, c.status ≠ ConditionStatus.cfalse) ∧
    ((updateStatus env u conditions).updated.status.phase = LDAPPhase.error ↔
      ∃ c ∈ conditions, c.status = ConditionStatus.cfalse) ∧
    ((updateStatus env u conditions).write = none ↔
      (updateStatus env u conditions).updated.status = u.status) :=
  ⟨updateStatus_phase_ready_iff env u conditions,
    updateStatus_phase_error_iff env u conditions,
    updateStatus_write_none_iff env u conditions⟩

/-- Witness for `updateStatus_phase_and_write`: with no stored conditions
and one computed False condition, phase becomes Error and a write occurs. -/
theorem updateStatus_phase_and_write_witness :
    ((updateStatus (sampleEnv (Except.ok sampleBasicAuthSecret) (Except.ok "pem")
          DryRunResult.notAuthenticated) sampleUpstream
        [⟨typeBindSecretValid, ConditionStatus.cfalse, reasonNotFound, "secret missing", 0, 0⟩]
      ).updated.status.phase = LDAPPhase.error) := by
  exact (updateStatus_phase_and_write
    (sampleEnv (Except.ok sampleBasicAuthSecret) (Except.ok "pem")
      DryRunResult.notAuthenticated) sampleUpstream
    [⟨typeBindSecretValid, ConditionStatus.cfalse, reasonNotFound, "secret missing", 0, 0⟩]
    ).2.1.mpr ⟨_, List.mem_cons_self _ _, rfl⟩

end LDAPUpstreamWatcher
